import Mathlib

/-!
Shallow embedding of the swarm-cronjob core (package `app`, together with the
HTTP trigger handler of package `eventservice`) in Lean 4.

The embedding follows the Go source:
  * `crudJob`, `removeJob`, `RunJobByEvent`, `WaitForEnd` from the app package;
  * `handle` from `internal/eventservice/event-service.go`.

External collaborators are modelled as explicit parameters:
  * the Docker client's task listing is an oracle `polls : Nat → List TaskInfo`
    giving the task list returned by the n-th `TaskList` call of a scenario
    (index 0 is the first call; errors of `TaskList` are out of scope — the
    claims under study concern error-free listings);
  * `TaskLogs` is an oracle `logsOf : String → String` (the Go code returns
    the fetched logs even when `TaskLogs` errs, with an error-log only, so a
    total function is faithful);
  * Go's `time.ParseDuration` is a parameter `pd : String → Option Nat`
    (duration in nanoseconds, `none` on parse failure);
  * the robfig/cron engine is modelled as a registry of `(EntryID, Job)`
    pairs with a fresh-id counter; `AddJob`'s schedule parsing is a
    parameter `valid : String → Bool` (malformed schedule ⇒ error);
  * the firing of the `time.After(timeout)` channel is a parameter
    `iterOf : Nat → Nat` mapping the duration to the number of completed
    poll iterations of the busy-wait loop before the timer delivers
    (a zero duration delivers at once: `iterOf 0 = 0`).
-/

namespace SwarmCronjob

/-- State of one task, mirroring the fields of `swarm.TaskStatus` the app
reads: `State` (a string in the Docker API) and `Err`. -/
structure TaskStatus where
  state : String
  err : String
deriving DecidableEq, Repr

/-- The Docker API's terminal state `swarm.TaskStateComplete`. -/
def taskStateComplete : String := "complete"

/-- The Docker API's terminal state `swarm.TaskStateFailed`. -/
def taskStateFailed : String := "failed"

/-- `model.TaskInfo` as used by the app package: a task identifier and its
status. -/
structure TaskInfo where
  id : String
  status : TaskStatus
deriving DecidableEq, Repr

/-- `model.ServiceInfo` as used by `crudJob`: the service name and its label
map. Go iterates the label map in unspecified order; the embedding fixes an
order by using a list of key/value pairs (a faithful choice because each key
occurs once in a Go map and the loop's only cross-label interaction, the
`scaledown` early return, mutates no state). -/
structure ServiceInfo where
  name : String
  labels : List (String × String)
deriving DecidableEq, Repr

/-- `model.Job` as populated by `crudJob` and read by `WaitForEnd` and
`RunJobByEvent`. `replicas` is Go's `uint64`, kept as `Nat` (parsing clamps
it below `2^64`). -/
structure Job where
  name : String
  enable : Bool
  skipRunning : Bool
  replicas : Nat
  schedule : String
  eventRun : Bool
  eventRunKey : String
  eventTimeout : String
  registryAuth : Bool
deriving DecidableEq, Repr

/-- Go's `strconv.ParseBool`: accepts exactly the twelve literals below;
returns `(value, ok)`, with value `false` when parsing fails. -/
def parseBoolGo (s : String) : Bool × Bool :=
  if s = "1" ∨ s = "t" ∨ s = "T" ∨ s = "TRUE" ∨ s = "true" ∨ s = "True" then
    (true, true)
  else if s = "0" ∨ s = "f" ∨ s = "F" ∨ s = "FALSE" ∨ s = "false" ∨ s = "False" then
    (false, true)
  else (false, false)

/-- Go's `strconv.ParseUint(s, 10, 64)`: a non-empty all-digit string parses
to its value (clamped to `2^64 - 1` with a range error when it overflows);
anything else yields `(0, syntax error)`. Returns `(value, ok)` — crucially,
the value component is `0` on a syntax error, exactly what the Go multiple
assignment `wc.Job.Replicas, err = strconv.ParseUint(...)` stores. -/
def parseUintGo (s : String) : Nat × Bool :=
  if s.data.length ≠ 0 ∧ s.data.all (fun c => c.isDigit) then
    let n := s.data.foldl (fun acc c => acc * 10 + (c.toNat - 48)) 0
    if n < 2 ^ 64 then (n, true) else (2 ^ 64 - 1, false)
  else (0, false)

/-- The `worker.Client` job that `crudJob` starts from before seeking
labels: name from the fetched service, `Enable := false`,
`SkipRunning := false`, `Replicas := 1`, remaining fields Go zero values. -/
def baseJob (name : String) : Job :=
  { name := name, enable := false, skipRunning := false, replicas := 1
  , schedule := "", eventRun := false, eventRunKey := "", eventTimeout := ""
  , registryAuth := false }

/-- One arm of `crudJob`'s label switch (every case except `scaledown`,
which short-circuits and is handled by `seekLabels`). Returns the updated
job and the list of label keys for which an error was logged: a failed
`ParseBool`/`ParseUint`/`ParseDuration`, or a parsed replicas value below
one. Parsed values are stored even when parsing fails (Go's multiple
assignment), and `event.timeout` is stored raw. -/
def applyLabel (pd : String → Option Nat) (j : Job) (k v : String) :
    Job × List String :=
  if k = "swarm.cronjob.enable" then
    let p := parseBoolGo v
    ({ j with enable := p.1 }, if p.2 then [] else [k])
  else if k = "swarm.cronjob.schedule" then
    ({ j with schedule := v }, [])
  else if k = "swarm.cronjob.event.enable" then
    let p := parseBoolGo v
    ({ j with eventRun := p.1 }, if p.2 then [] else [k])
  else if k = "swarm.cronjob.event.key" then
    ({ j with eventRunKey := v }, [])
  else if k = "swarm.cronjob.event.timeout" then
    ({ j with eventTimeout := v }, if (pd v).isSome then [] else [k])
  else if k = "swarm.cronjob.skip-running" then
    let p := parseBoolGo v
    ({ j with skipRunning := p.1 }, if p.2 then [] else [k])
  else if k = "swarm.cronjob.replicas" then
    let p := parseUintGo v
    ({ j with replicas := p.1 }
    , if p.2 then (if p.1 < 1 then [k] else []) else [k])
  else if k = "swarm.cronjob.registry-auth" then
    let p := parseBoolGo v
    ({ j with registryAuth := p.1 }, if p.2 then [] else [k])
  else (j, [])

/-- The label loop of `crudJob` (`for labelKey, labelValue := range
service.Labels`). Returns `none` when a `scaledown` label with value
`"true"` makes `crudJob` return `(false, nil)` early; otherwise the built
job together with all logged label errors. -/
def seekLabels (pd : String → Option Nat) :
    Job → List (String × String) → Option (Job × List String)
  | j, [] => some (j, [])
  | j, (k, v) :: rest =>
    if k = "swarm.cronjob.scaledown" then
      if v = "true" then none else seekLabels pd j rest
    else
      let a := applyLabel pd j k v
      (seekLabels pd a.1 rest).map (fun p => (p.1, a.2 ++ p.2))

/-- Association-list lookup, the model of reading a Go map (`sc.jobs`) and
of `cron.Entry` on the entry list. -/
def lookupAssoc {κ α : Type} [DecidableEq κ] : List (κ × α) → κ → Option α
  | [], _ => none
  | (k, v) :: rest, key => if k = key then some v else lookupAssoc rest key

/-- Association-list overwrite, the model of Go map assignment
(`sc.jobs[serviceName] = jobID`). -/
def insertAssoc {κ α : Type} [DecidableEq κ]
    (l : List (κ × α)) (k : κ) (v : α) : List (κ × α) :=
  (k, v) :: l.filter (fun e => e.1 ≠ k)

/-- State of the robfig/cron engine as the app uses it: the live entries
(entry id paired with the registered worker's `Job`) and the next fresh
entry id. -/
structure CronState where
  entries : List (Nat × Job)
  nextId : Nat
deriving DecidableEq, Repr

/-- State of a `SwarmCronjob` value: the cron engine plus the
`jobs : map[string]cron.EntryID` registry. -/
structure ScState where
  cron : CronState
  jobs : List (String × Nat)
deriving DecidableEq, Repr

/-- Result of `crudJob`: the post state together with Go's
`(bool, error)` return, the error collapsed to a flag (the only error
`crudJob` returns is `cron.AddJob`'s schedule-parse failure). -/
structure CrudResult where
  st : ScState
  changed : Bool
  isErr : Bool
deriving DecidableEq, Repr

/-- `removeJob`: delete the service from the jobs map and remove its entry
from the cron engine. -/
def removeJob (st : ScState) (serviceName : String) (id : Nat) : ScState :=
  { cron := { entries := st.cron.entries.filter (fun e => e.1 ≠ id)
            , nextId := st.cron.nextId }
  , jobs := st.jobs.filter (fun e => e.1 ≠ serviceName) }

/-- `crudJob`: reconcile one service. `svc` is the result of
`sc.docker.Service(serviceName)` (`none` models the error return, e.g. the
service no longer exists). `cron.AddJob` succeeds exactly when `valid`
accepts the schedule string, registering the worker under a fresh entry
id. -/
def crudJob (pd : String → Option Nat) (valid : String → Bool)
    (svc : Option ServiceInfo) (serviceName : String) (st : ScState) :
    CrudResult :=
  let found := lookupAssoc st.jobs serviceName
  match svc with
  | none =>
    match found with
    | some id => ⟨removeJob st serviceName id, true, false⟩
    | none => ⟨st, false, false⟩
  | some service =>
    match seekLabels pd (baseJob service.name) service.labels with
    | none => ⟨st, false, false⟩
    | some jerrs =>
      if jerrs.1.enable = false then
        match found with
        | some id => ⟨removeJob st serviceName id, true, false⟩
        | none => ⟨st, false, false⟩
      else
        let st1 := match found with
          | some id => removeJob st serviceName id
          | none => st
        if valid jerrs.1.schedule then
          ⟨{ cron := { entries := (st1.cron.nextId, jerrs.1) :: st1.cron.entries
                     , nextId := st1.cron.nextId + 1 }
           , jobs := insertAssoc st1.jobs serviceName st1.cron.nextId }
          , true, false⟩
        else ⟨st1, false, true⟩

/-- Outcome of `WaitForEnd` (Go return `(string, error)`): `ok logs` for a
nil-error return, `err msg` for a non-nil error, and `nilPanic` for a
runtime panic (nil-pointer dereference or failed type assertion), which in
Go aborts instead of returning. -/
inductive WaitRes
  | ok (logs : String)
  | err (msg : String)
  | nilPanic
deriving DecidableEq, Repr

/-- The `for _, x := range list` loop of `WaitForEnd`: the first task of
the freshly fetched list whose id is not among the baseline snapshot's ids
(the task the waiter will watch); `none` when every listed task was already
in the snapshot. -/
def firstNew (keys : List String) : List TaskInfo → Option TaskInfo
  | [] => none
  | x :: rest => if x.id ∈ keys then firstNew keys rest else some x

/-- The `for _, tsk := range tl` scan inside `WaitForEnd`'s polling loop:
looks for the watched task id in one polled task list; on state `complete`
returns the fetched logs (a nil-error return even when `TaskLogs` errs), on
state `failed` returns the task's status error; any other state, or a
different id, is skipped. `none` means the poll found no terminal outcome
for the watched id. -/
def scanTasks (logsOf : String → String) (xid : String) :
    List TaskInfo → Option WaitRes
  | [] => none
  | t :: rest =>
    if t.id = xid then
      if t.status.state = taskStateComplete then some (.ok (logsOf t.id))
      else if t.status.state = taskStateFailed then some (.err t.status.err)
      else scanTasks logsOf xid rest
    else scanTasks logsOf xid rest

/-- The `for timeout := time.After(timeout); ;` busy loop of `WaitForEnd`.
`fuel` is the number of poll iterations the `time.After` channel allows
before it delivers: each iteration first checks the channel (fuel `0` ⇒
return the `"Timeout"` error), then fetches the task list and scans it for
the watched id. -/
def waitLoop (logsOf : String → String) (xid : String) :
    Nat → (Nat → List TaskInfo) → WaitRes
  | 0, _ => .err "Timeout"
  | fuel + 1, polls =>
    match scanTasks logsOf xid (polls 0) with
    | some r => r
    | none => waitLoop logsOf xid fuel (fun n => polls (n + 1))

/-- Body of `WaitForEnd` after the worker lookup: fetch the task list
(poll 0), return the `"Не найден список задач"` error when no task outside
the baseline snapshot is listed; otherwise read `wc.Job.EventTimeout` —
a nil-pointer panic when no worker was found — parse it with the error
discarded (`timeout, _ := time.ParseDuration(...)`, so an unparsable
string yields duration `0`), and enter the polling loop watching the first
new task. -/
def waitBody (pd : String → Option Nat) (iterOf : Nat → Nat)
    (logsOf : String → String) (polls : Nat → List TaskInfo)
    (wc : Option Job) (tasks : List TaskInfo) : WaitRes :=
  match firstNew (tasks.map (fun t => t.id)) (polls 0) with
  | none => .err "Не найден список задач"
  | some x =>
    match wc with
    | none => .nilPanic
    | some j =>
      waitLoop logsOf x.id (iterOf ((pd j.eventTimeout).getD 0))
        (fun n => polls (n + 1))

/-- `WaitForEnd(serviceName, tasks)`: look up the service's cron entry id
(`jobFound`) and, when found, the worker via `cron.Entry(jobID).Job`
(a missing cron entry leaves that `Job` nil and the type assertion
`.(*worker.Client)` panics); then run `waitBody`. `tasks` is the caller's
baseline task snapshot, `polls n` the task list returned by the n-th
`TaskList` call made by this function. -/
def waitForEnd (pd : String → Option Nat) (iterOf : Nat → Nat)
    (logsOf : String → String) (polls : Nat → List TaskInfo)
    (st : ScState) (serviceName : String) (tasks : List TaskInfo) : WaitRes :=
  match lookupAssoc st.jobs serviceName with
  | some id =>
    match lookupAssoc st.cron.entries id with
    | none => .nilPanic
    | some j => waitBody pd iterOf logsOf polls (some j) tasks
  | none => waitBody pd iterOf logsOf polls none tasks

/-- `RunJobByEvent(serviceName, key)`: `some true` when the job is run
(`sc.cron.Entry(jobID).Job.Run()` is invoked), `some false` when the call
only logs (service unknown, event runs not enabled, or wrong key), `none`
for the panic of the type assertion when the jobs map points at a missing
cron entry. -/
def runJobByEvent (st : ScState) (serviceName key : String) : Option Bool :=
  match lookupAssoc st.jobs serviceName with
  | none => some false
  | some id =>
    match lookupAssoc st.cron.entries id with
    | none => none
    | some j =>
      if j.eventRun then
        if j.eventRunKey = key then some true else some false
      else some false

/-- The eventservice `handle(app, ctx)` for `GET /event/:service/:key`:
fetch the baseline task snapshot (`app.Tasks`, the scenario's poll 0), call
`RunJobByEvent` (its return is discarded; the request sleeps, then waits),
and turn `WaitForEnd`'s result into the HTTP reply — `(200, logs)` on a nil
error, `(500, message)` otherwise. `none` models a panic escaping the
handler. `WaitForEnd`'s own `TaskList` calls are polls 1, 2, … of the
scenario. -/
def handle (pd : String → Option Nat) (iterOf : Nat → Nat)
    (logsOf : String → String) (polls : Nat → List TaskInfo)
    (st : ScState) (serviceName key : String) : Option (Nat × String) :=
  let tasks := polls 0
  match runJobByEvent st serviceName key with
  | none => none
  | some _ =>
    match waitForEnd pd iterOf logsOf (fun n => polls (n + 1)) st serviceName tasks with
    | .ok msg => some (200, msg)
    | .err e => some (500, e)
    | .nilPanic => none

/-- The worker job currently registered for a service: the model of
`sc.cron.Entry(sc.jobs[serviceName]).Job`. -/
def jobFor (st : ScState) (serviceName : String) : Option Job :=
  (lookupAssoc st.jobs serviceName).bind (fun id => lookupAssoc st.cron.entries id)

/-! ### Supporting lemmas -/

theorem lookupAssoc_filter_ne {κ α : Type} [DecidableEq κ]
    (l : List (κ × α)) (k : κ) :
    lookupAssoc (l.filter (fun e => e.1 ≠ k)) k = none := by
  induction l with
  | nil => rfl
  | cons e rest ih =>
    obtain ⟨k1, v⟩ := e
    by_cases h : k1 = k
    · simpa [List.filter_cons, h] using ih
    · simpa [List.filter_cons, h, lookupAssoc] using ih

theorem filter_ne_of_lookup_none {κ α : Type} [DecidableEq κ]
    {l : List (κ × α)} {k : κ} (h : lookupAssoc l k = none) :
    l.filter (fun e => e.1 ≠ k) = l := by
  induction l with
  | nil => rfl
  | cons e rest ih =>
    obtain ⟨k1, v⟩ := e
    rw [lookupAssoc] at h
    by_cases hk : k1 = k
    · simp [hk] at h
    · rw [if_neg hk] at h
      rw [List.filter_cons, if_pos (by simpa using hk), ih h]

theorem lookupAssoc_eq_none_of_forall {κ α : Type} [DecidableEq κ]
    {l : List (κ × α)} {k : κ} (h : ∀ e ∈ l, e.1 ≠ k) :
    lookupAssoc l k = none := by
  induction l with
  | nil => rfl
  | cons e rest ih =>
    obtain ⟨k1, v⟩ := e
    rw [lookupAssoc, if_neg (h (k1, v) (by simp))]
    exact ih fun x hx => h x (by simp [hx])

theorem filter_ne_of_forall {κ α : Type} [DecidableEq κ]
    {l : List (κ × α)} {k : κ} (h : ∀ e ∈ l, e.1 ≠ k) :
    l.filter (fun e => e.1 ≠ k) = l :=
  filter_ne_of_lookup_none (lookupAssoc_eq_none_of_forall h)

theorem forall_ne_of_lookup_none {κ α : Type} [DecidableEq κ]
    {l : List (κ × α)} {k : κ} (h : lookupAssoc l k = none) :
    ∀ e ∈ l, e.1 ≠ k := by
  induction l with
  | nil => intro e he; simp at he
  | cons e rest ih =>
    obtain ⟨k1, v⟩ := e
    rw [lookupAssoc] at h
    by_cases hk : k1 = k
    · simp [hk] at h
    · rw [if_neg hk] at h
      intro x hx
      rcases List.mem_cons.mp hx with hx | hx
      · rw [hx]; exact hk
      · exact ih h x hx

theorem firstNew_eq_none {keys : List String} {l : List TaskInfo}
    (h : ∀ t ∈ l, t.id ∈ keys) : firstNew keys l = none := by
  induction l with
  | nil => rfl
  | cons t rest ih =>
    rw [firstNew, if_pos (h t (by simp))]
    exact ih (fun x hx => h x (by simp [hx]))

theorem firstNew_isSome {keys : List String} {l : List TaskInfo}
    (h : ∃ t ∈ l, t.id ∉ keys) : (firstNew keys l).isSome := by
  induction l with
  | nil => simp at h
  | cons t rest ih =>
    by_cases ht : t.id ∈ keys
    · rw [firstNew, if_pos ht]
      rcases h with ⟨x, hx, hxk⟩
      rcases List.mem_cons.mp hx with hx | hx
      · exact absurd (hx ▸ ht) hxk
      · exact ih ⟨x, hx, hxk⟩
    · rw [firstNew, if_neg ht]
      rfl

theorem seekLabels_scaledown {pd : String → Option Nat}
    {L : List (String × String)} {j : Job}
    (h : ("swarm.cronjob.scaledown", "true") ∈ L) :
    seekLabels pd j L = none := by
  induction L generalizing j with
  | nil => simp at h
  | cons kv rest ih =>
    obtain ⟨k, v⟩ := kv
    rcases List.mem_cons.mp h with h | h
    · injection h.symm with hk hv
      subst hk
      subst hv
      simp [seekLabels]
    · by_cases hk : k = "swarm.cronjob.scaledown"
      · by_cases hv : v = "true"
        · simp [seekLabels, hk, hv]
        · simp [seekLabels, hk, hv, ih h]
      · simp [seekLabels, hk, ih h]

theorem crudJob_gone_found {pd : String → Option Nat} {valid : String → Bool}
    {st : ScState} {serviceName : String} {id : Nat}
    (hf : lookupAssoc st.jobs serviceName = some id) :
    crudJob pd valid none serviceName st = ⟨removeJob st serviceName id, true, false⟩ := by
  simp [crudJob, hf]

theorem crudJob_gone_absent {pd : String → Option Nat} {valid : String → Bool}
    {st : ScState} {serviceName : String}
    (hf : lookupAssoc st.jobs serviceName = none) :
    crudJob pd valid none serviceName st = ⟨st, false, false⟩ := by
  simp [crudJob, hf]

theorem crudJob_disabled_found {pd : String → Option Nat} {valid : String → Bool}
    {st : ScState} {sname serviceName : String} {L : List (String × String)}
    {j : Job} {es : List String} {id : Nat}
    (hL : seekLabels pd (baseJob sname) L = some (j, es))
    (hE : j.enable = false)
    (hf : lookupAssoc st.jobs serviceName = some id) :
    crudJob pd valid (some ⟨sname, L⟩) serviceName st
      = ⟨removeJob st serviceName id, true, false⟩ := by
  simp [crudJob, hf, hL, hE]

theorem crudJob_disabled_absent {pd : String → Option Nat} {valid : String → Bool}
    {st : ScState} {sname serviceName : String} {L : List (String × String)}
    {j : Job} {es : List String}
    (hL : seekLabels pd (baseJob sname) L = some (j, es))
    (hE : j.enable = false)
    (hf : lookupAssoc st.jobs serviceName = none) :
    crudJob pd valid (some ⟨sname, L⟩) serviceName st = ⟨st, false, false⟩ := by
  simp [crudJob, hf, hL, hE]

theorem crudJob_enabled_valid_absent {pd : String → Option Nat} {valid : String → Bool}
    {st : ScState} {sname serviceName : String} {L : List (String × String)}
    {j : Job} {es : List String}
    (hL : seekLabels pd (baseJob sname) L = some (j, es))
    (hE : j.enable = true)
    (hV : valid j.schedule = true)
    (hf : lookupAssoc st.jobs serviceName = none) :
    crudJob pd valid (some ⟨sname, L⟩) serviceName st
      = ⟨⟨⟨(st.cron.nextId, j) :: st.cron.entries, st.cron.nextId + 1⟩,
          insertAssoc st.jobs serviceName st.cron.nextId⟩, true, false⟩ := by
  simp [crudJob, hf, hL, hE, hV]

theorem crudJob_enabled_valid_found {pd : String → Option Nat} {valid : String → Bool}
    {st : ScState} {sname serviceName : String} {L : List (String × String)}
    {j : Job} {es : List String} {id : Nat}
    (hL : seekLabels pd (baseJob sname) L = some (j, es))
    (hE : j.enable = true)
    (hV : valid j.schedule = true)
    (hf : lookupAssoc st.jobs serviceName = some id) :
    crudJob pd valid (some ⟨sname, L⟩) serviceName st
      = ⟨⟨⟨(st.cron.nextId, j) :: st.cron.entries.filter (fun e => e.1 ≠ id),
           st.cron.nextId + 1⟩,
          insertAssoc (st.jobs.filter (fun e => e.1 ≠ serviceName)) serviceName
            st.cron.nextId⟩, true, false⟩ := by
  simp [crudJob, hf, hL, hE, hV, removeJob]

theorem crudJob_enabled_invalid_found {pd : String → Option Nat} {valid : String → Bool}
    {st : ScState} {sname serviceName : String} {L : List (String × String)}
    {j : Job} {es : List String} {id : Nat}
    (hL : seekLabels pd (baseJob sname) L = some (j, es))
    (hE : j.enable = true)
    (hV : valid j.schedule = false)
    (hf : lookupAssoc st.jobs serviceName = some id) :
    crudJob pd valid (some ⟨sname, L⟩) serviceName st
      = ⟨removeJob st serviceName id, false, true⟩ := by
  simp [crudJob, hf, hL, hE, hV]

theorem toggle_step2 {pd : String → Option Nat} {valid : String → Bool}
    {name : String} {L2 : List (String × String)} {j j2 : Job} {e2 : List String}
    {N : Nat} {E1 : List (Nat × Job)} {F0 : List (String × Nat)}
    (hL2 : seekLabels pd (baseJob name) L2 = some (j2, e2))
    (hE2 : j2.enable = false)
    (hElt : ∀ e ∈ E1, e.1 ≠ N)
    (hF0 : lookupAssoc F0 name = none) :
    crudJob pd valid (some ⟨name, L2⟩) name ⟨⟨(N, j) :: E1, N + 1⟩, (name, N) :: F0⟩
      = ⟨⟨⟨E1, N + 1⟩, F0⟩, true, false⟩ := by
  have hf : lookupAssoc (((name, N) :: F0) : List (String × Nat)) name = some N := by
    simp [lookupAssoc]
  have h1 : (((N, j) :: E1) : List (Nat × Job)).filter (fun e => e.1 ≠ N) = E1 := by
    rw [List.filter_cons, if_neg (by simp)]
    exact filter_ne_of_forall hElt
  have h2 : (((name, N) :: F0) : List (String × Nat)).filter (fun e => e.1 ≠ name) = F0 := by
    rw [List.filter_cons, if_neg (by simp)]
    exact filter_ne_of_lookup_none hF0
  rw [crudJob_disabled_found hL2 hE2 hf]
  simp only [removeJob]
  simp [h1, h2]
  exact ⟨fun a b hab => hElt (a, b) hab,
    fun a b hab => forall_ne_of_lookup_none hF0 (a, b) hab⟩

theorem toggle_step3 {pd : String → Option Nat} {valid : String → Bool}
    {name : String} {L1 : List (String × String)} {j : Job} {e1 : List String}
    {N : Nat} {E1 : List (Nat × Job)} {F0 : List (String × Nat)}
    (hL1 : seekLabels pd (baseJob name) L1 = some (j, e1))
    (hE1 : j.enable = true)
    (hV : valid j.schedule = true)
    (hF0 : lookupAssoc F0 name = none) :
    crudJob pd valid (some ⟨name, L1⟩) name ⟨⟨E1, N + 1⟩, F0⟩
      = ⟨⟨⟨(N + 1, j) :: E1, N + 2⟩, (name, N + 1) :: F0⟩, true, false⟩ := by
  rw [crudJob_enabled_valid_absent hL1 hE1 hV hF0]
  simp [insertAssoc]
  exact fun a b hab => forall_ne_of_lookup_none hF0 (a, b) hab

theorem toggle_tail {pd : String → Option Nat} {valid : String → Bool}
    {name : String} {L1 L2 : List (String × String)} {j j2 : Job}
    {e1 e2 : List String} {N : Nat} {E1 : List (Nat × Job)} {F0 : List (String × Nat)}
    (hL1 : seekLabels pd (baseJob name) L1 = some (j, e1))
    (hE1 : j.enable = true)
    (hV : valid j.schedule = true)
    (hL2 : seekLabels pd (baseJob name) L2 = some (j2, e2))
    (hE2 : j2.enable = false)
    (hElt : ∀ e ∈ E1, e.1 ≠ N)
    (hF0 : lookupAssoc F0 name = none) :
    jobFor (⟨⟨(N, j) :: E1, N + 1⟩, (name, N) :: F0⟩ : ScState) name = some j
    ∧ jobFor (crudJob pd valid (some ⟨name, L1⟩) name
        (crudJob pd valid (some ⟨name, L2⟩) name
          ⟨⟨(N, j) :: E1, N + 1⟩, (name, N) :: F0⟩).st).st name = some j
    ∧ (crudJob pd valid (some ⟨name, L1⟩) name
        (crudJob pd valid (some ⟨name, L2⟩) name
          ⟨⟨(N, j) :: E1, N + 1⟩, (name, N) :: F0⟩).st).st.jobs.length
      = ((name, N) :: F0).length
    ∧ (crudJob pd valid (some ⟨name, L1⟩) name
        (crudJob pd valid (some ⟨name, L2⟩) name
          ⟨⟨(N, j) :: E1, N + 1⟩, (name, N) :: F0⟩).st).st.cron.entries.length
      = ((N, j) :: E1).length := by
  rw [toggle_step2 hL2 hE2 hElt hF0]
  refine ⟨by simp [jobFor, lookupAssoc], ?_, ?_, ?_⟩
  · rw [show ((⟨⟨⟨E1, N + 1⟩, F0⟩, true, false⟩ : CrudResult).st) = (⟨⟨E1, N + 1⟩, F0⟩ : ScState) from rfl,
      toggle_step3 hL1 hE1 hV hF0]
    simp [jobFor, lookupAssoc]
  · rw [show ((⟨⟨⟨E1, N + 1⟩, F0⟩, true, false⟩ : CrudResult).st) = (⟨⟨E1, N + 1⟩, F0⟩ : ScState) from rfl,
      toggle_step3 hL1 hE1 hV hF0]
    rfl
  · rw [show ((⟨⟨⟨E1, N + 1⟩, F0⟩, true, false⟩ : CrudResult).st) = (⟨⟨E1, N + 1⟩, F0⟩ : ScState) from rfl,
      toggle_step3 hL1 hE1 hV hF0]
    rfl

theorem waitLoop_eq_of_scan {logsOf : String → String} {xid : String} :
    ∀ (n fuel : Nat) (polls : Nat → List TaskInfo) (r : WaitRes),
      (∀ k, k < n → scanTasks logsOf xid (polls k) = none) →
      scanTasks logsOf xid (polls n) = some r →
      n < fuel →
      waitLoop logsOf xid fuel polls = r := by
  intro n
  induction n with
  | zero =>
    intro fuel polls r _ hs hlt
    match fuel, hlt with
    | fuel + 1, _ => simp [waitLoop, hs]
  | succ n ih =>
    intro fuel polls r h0 hs hlt
    match fuel, hlt with
    | fuel + 1, hlt =>
      have h00 : scanTasks logsOf xid (polls 0) = none := h0 0 (Nat.succ_pos n)
      rw [waitLoop, h00]
      exact ih fuel (fun k => polls (k + 1)) r
        (fun k hk => h0 (k + 1) (Nat.succ_lt_succ hk)) hs
        (Nat.lt_of_succ_lt_succ hlt)

/-! ### Claim theorems -/

/-- C1, counterexample: a call of `WaitForEnd` in which no task outside the
baseline snapshot ever appears (the task list is constantly the baseline
`[A]`) does not return the timeout outcome at or after the configured
timeout — it returns the distinct error `"Не найден список задач"`
immediately, although the timer would only fire after 1000000 poll
iterations. -/
theorem C1_counterexample :
    waitForEnd (fun _ => some 7) (fun _ => 1000000) (fun _ => "LOG")
      (fun _ => [⟨"A", ⟨"running", ""⟩⟩]) ⟨⟨[], 0⟩, []⟩ "svc"
      [⟨"A", ⟨"running", ""⟩⟩]
      = .err "Не найден список задач"
    ∧ waitForEnd (fun _ => some 7) (fun _ => 1000000) (fun _ => "LOG")
      (fun _ => [⟨"A", ⟨"running", ""⟩⟩]) ⟨⟨[], 0⟩, []⟩ "svc"
      [⟨"A", ⟨"running", ""⟩⟩]
      ≠ .err "Timeout" := by
  constructor
  · rfl
  · decide

/-- C1, amended: when the single initial task-list fetch of `WaitForEnd`
contains no task outside the baseline snapshot, the call returns at once
with the error `"Не найден список задач"` — it never polls again, never
waits for the configured timeout, and never produces the `"Timeout"`
outcome (which can only arise after a new task was seen in the initial
fetch). The worker lookup hypothesis states the registry is consistent for
this service (a jobs-map entry, when present, has its cron entry), the
invariant `crudJob` maintains. -/
theorem C1_no_new_task_in_first_fetch
    (pd : String → Option Nat) (iterOf : Nat → Nat) (logsOf : String → String)
    (polls : Nat → List TaskInfo) (st : ScState) (serviceName : String)
    (tasks : List TaskInfo)
    (hwc : lookupAssoc st.jobs serviceName = none
      ∨ ∃ id j, lookupAssoc st.jobs serviceName = some id
          ∧ lookupAssoc st.cron.entries id = some j)
    (h : ∀ t ∈ polls 0, t.id ∈ tasks.map (fun t => t.id)) :
    waitForEnd pd iterOf logsOf polls st serviceName tasks
      = .err "Не найден список задач" := by
  have hf := firstNew_eq_none h
  rcases hwc with hwc | ⟨id, j, h1, h2⟩
  · simp [waitForEnd, hwc, waitBody, hf]
  · simp [waitForEnd, h1, h2, waitBody, hf]

/-- Witness for C1's amended theorem at a concrete input. -/
theorem C1_no_new_task_in_first_fetch_witness :
    waitForEnd (fun _ => some 7) (fun _ => 5) (fun _ => "LOG")
      (fun _ => [⟨"A", ⟨"running", ""⟩⟩]) ⟨⟨[], 0⟩, []⟩ "svc"
      [⟨"A", ⟨"running", ""⟩⟩]
      = .err "Не найден список задач" :=
  C1_no_new_task_in_first_fetch _ _ _ _ _ _ _ (Or.inl rfl) (by decide)

/-- C2, code-bug evaluation: a `replicas` label of `"0"`, and likewise a
non-numeric `"zzz"`, is rejected with a recorded error for key
`swarm.cronjob.replicas`, but the job built by the label loop stores
`replicas = 0` — the Go multiple assignment keeps `ParseUint`'s zero result
instead of falling back to the default `1`, violating the `replicas ≥ 1`
invariant asserted by the code's own error message. -/
theorem C2_replicas_stored_zero :
    seekLabels (fun _ => none) (baseJob "svc") [("swarm.cronjob.replicas", "0")]
      = some ({ baseJob "svc" with replicas := 0 }, ["swarm.cronjob.replicas"])
    ∧ seekLabels (fun _ => none) (baseJob "svc") [("swarm.cronjob.replicas", "zzz")]
      = some ({ baseJob "svc" with replicas := 0 }, ["swarm.cronjob.replicas"]) := by
  constructor
  · decide
  · decide

/-- C3, counterexample: baseline empty, initial fetch lists two new tasks
`A` (first) and `B`; from the first poll on, `B` is in state `complete`
while `A` keeps running. The claim predicts the waiter inspects each newly
seen task and returns `Completed` with `B`'s logs immediately; the code
watches only `A` and runs into the timeout, returning the `"Timeout"`
error, not `ok "LOG"`. -/
theorem C3_counterexample :
    waitForEnd (fun _ => some 3600000000000) (fun _ => 3) (fun _ => "LOG")
      (fun n => match n with
        | 0 => [⟨"A", ⟨"running", ""⟩⟩, ⟨"B", ⟨"running", ""⟩⟩]
        | _ + 1 => [⟨"A", ⟨"running", ""⟩⟩, ⟨"B", ⟨"complete", ""⟩⟩])
      ⟨⟨[(1, { baseJob "svc" with enable := true, eventTimeout := "1h" })], 2⟩,
        [("svc", 1)]⟩ "svc" []
      = .err "Timeout"
    ∧ (.err "Timeout" : WaitRes) ≠ .ok "LOG" := by
  constructor
  · rfl
  · decide

/-- C3, amended: the waiter watches only the first task of the initial
task-list fetch that is absent from the baseline snapshot. On each poll it
inspects only that watched task: at the first poll whose scan finds the
watched id in a terminal state (`complete` ⇒ its logs are fetched and
returned immediately, without waiting for sibling tasks; `failed` ⇒ its
status error is returned immediately, no retry), that outcome is returned,
provided the timeout has not fired earlier; newly seen sibling tasks other
than the watched one are never inspected. -/
theorem C3_watched_task_terminal
    (pd : String → Option Nat) (iterOf : Nat → Nat) (logsOf : String → String)
    (polls : Nat → List TaskInfo) (st : ScState) (serviceName : String)
    (tasks : List TaskInfo) (id : Nat) (j : Job) (x : TaskInfo) (n : Nat)
    (r : WaitRes)
    (h1 : lookupAssoc st.jobs serviceName = some id)
    (h2 : lookupAssoc st.cron.entries id = some j)
    (h3 : firstNew (tasks.map (fun t => t.id)) (polls 0) = some x)
    (h4 : ∀ k, k < n → scanTasks logsOf x.id (polls (k + 1)) = none)
    (h5 : scanTasks logsOf x.id (polls (n + 1)) = some r)
    (h6 : n < iterOf ((pd j.eventTimeout).getD 0)) :
    waitForEnd pd iterOf logsOf polls st serviceName tasks = r := by
  simp only [waitForEnd, h1, h2, waitBody, h3]
  exact waitLoop_eq_of_scan n _ (fun k => polls (k + 1)) r h4 h5 h6

/-- Witness for C3's amended theorem at a concrete input: the watched task
`A` completes at the first poll and its logs are returned. -/
theorem C3_watched_task_terminal_witness :
    waitForEnd (fun _ => some 9) (fun _ => 5) (fun _ => "LOG")
      (fun n => match n with
        | 0 => [⟨"A", ⟨"running", ""⟩⟩]
        | _ + 1 => [⟨"A", ⟨"complete", ""⟩⟩])
      ⟨⟨[(1, { baseJob "svc" with enable := true, eventTimeout := "1s" })], 2⟩,
        [("svc", 1)]⟩ "svc" []
      = .ok "LOG" :=
  C3_watched_task_terminal _ _ _ _ _ _ _ 1 _ ⟨"A", ⟨"running", ""⟩⟩ 0 _
    rfl rfl rfl (fun k hk => absurd hk (Nat.not_lt_zero k)) rfl (by decide)

/-- C4: when the fetch of the service fails (service vanished), `crudJob`
removes an existing schedule entry and returns `(changed = true, no
error)`; with no existing entry it is a no-op returning `(changed = false,
no error)` — service absence is never an error. -/
theorem C4_service_vanished (pd : String → Option Nat) (valid : String → Bool)
    (st : ScState) (serviceName : String) :
    (∀ id, lookupAssoc st.jobs serviceName = some id →
      crudJob pd valid none serviceName st
        = ⟨removeJob st serviceName id, true, false⟩
      ∧ lookupAssoc (removeJob st serviceName id).jobs serviceName = none)
    ∧ (lookupAssoc st.jobs serviceName = none →
      crudJob pd valid none serviceName st = ⟨st, false, false⟩) := by
  constructor
  · intro id h
    refine ⟨crudJob_gone_found h, ?_⟩
    simpa [removeJob] using lookupAssoc_filter_ne st.jobs serviceName
  · intro h
    exact crudJob_gone_absent h

/-- Witness for C4 at concrete inputs: one state with a registered entry,
one without. -/
theorem C4_service_vanished_witness :
    (crudJob (fun _ => none) (fun _ => true) none "a"
        ⟨⟨[(7, baseJob "a")], 8⟩, [("a", 7)]⟩
      = ⟨removeJob ⟨⟨[(7, baseJob "a")], 8⟩, [("a", 7)]⟩ "a" 7, true, false⟩
      ∧ lookupAssoc (removeJob ⟨⟨[(7, baseJob "a")], 8⟩, [("a", 7)]⟩ "a" 7).jobs "a"
        = none)
    ∧ crudJob (fun _ => none) (fun _ => true) none "b" ⟨⟨[], 0⟩, []⟩
      = ⟨⟨⟨[], 0⟩, []⟩, false, false⟩ :=
  ⟨(C4_service_vanished _ _ _ _).1 7 rfl, (C4_service_vanished _ _ _ _).2 rfl⟩

/-- C5: a `scaledown` label with value `"true"` anywhere in the label set
makes `crudJob` a complete no-op: the state (including any existing
registry entry) is untouched and `(changed = false, no error)` is
returned, regardless of the other labels. -/
theorem C5_scaledown_noop (pd : String → Option Nat) (valid : String → Bool)
    (st : ScState) (serviceName svcName : String)
    (labels : List (String × String))
    (h : ("swarm.cronjob.scaledown", "true") ∈ labels) :
    crudJob pd valid (some ⟨svcName, labels⟩) serviceName st
      = ⟨st, false, false⟩ := by
  simp [crudJob, seekLabels_scaledown h]

/-- Witness for C5 at a concrete input: an enabled service with a valid
schedule, already registered, whose reconcile is still a no-op because of
`scaledown=true`. -/
theorem C5_scaledown_noop_witness :
    crudJob (fun _ => none) (fun _ => true)
      (some ⟨"svc", [("swarm.cronjob.enable", "true"),
                     ("swarm.cronjob.schedule", "* * * * *"),
                     ("swarm.cronjob.scaledown", "true")]⟩) "svc"
      ⟨⟨[(4, baseJob "svc")], 5⟩, [("svc", 4)]⟩
      = ⟨⟨⟨[(4, baseJob "svc")], 5⟩, [("svc", 4)]⟩, false, false⟩ :=
  C5_scaledown_noop _ _ _ _ _ _ (by decide)

/-- C6: for a registered service with `eventRun = true`, a key that
differs from the configured event key makes `RunJobByEvent` return without
invoking the job (`some false`: zero run calls), and — the task list being
unchanged since nothing was fired — the HTTP handler answers with the 500
error response carrying `WaitForEnd`'s `"Не найден список задач"` error. -/
theorem C6_key_mismatch_no_run
    (pd : String → Option Nat) (iterOf : Nat → Nat) (logsOf : String → String)
    (polls : Nat → List TaskInfo) (st : ScState) (serviceName key : String)
    (id : Nat) (j : Job)
    (h1 : lookupAssoc st.jobs serviceName = some id)
    (h2 : lookupAssoc st.cron.entries id = some j)
    (h3 : j.eventRun = true)
    (h4 : j.eventRunKey ≠ key)
    (h5 : ∀ n, polls n = polls 0) :
    runJobByEvent st serviceName key = some false
    ∧ handle pd iterOf logsOf polls st serviceName key
      = some (500, "Не найден список задач") := by
  have hr : runJobByEvent st serviceName key = some false := by
    simp [runJobByEvent, h1, h2, h3, h4]
  refine ⟨hr, ?_⟩
  have hfn : firstNew ((polls 0).map (fun t => t.id)) (polls 1) = none := by
    apply firstNew_eq_none
    intro t ht
    rw [h5 1] at ht
    exact List.mem_map_of_mem _ ht
  have hw : waitForEnd pd iterOf logsOf (fun n => polls (n + 1)) st serviceName
      (polls 0) = .err "Не найден список задач" := by
    simp [waitForEnd, h1, h2, waitBody, hfn]
  simp [handle, hr, hw]

/-- Witness for C6 at a concrete input. -/
theorem C6_key_mismatch_no_run_witness :
    runJobByEvent
      ⟨⟨[(3, { baseJob "svc" with eventRun := true, eventRunKey := "secret" })], 4⟩,
        [("svc", 3)]⟩ "svc" "wrong" = some false
    ∧ handle (fun _ => some 5) (fun d => d) (fun _ => "LOG") (fun _ => [])
        ⟨⟨[(3, { baseJob "svc" with eventRun := true, eventRunKey := "secret" })], 4⟩,
          [("svc", 3)]⟩ "svc" "wrong"
      = some (500, "Не найден список задач") :=
  C6_key_mismatch_no_run _ _ _ _ _ _ _ 3 _ rfl rfl rfl (by decide) (fun _ => rfl)

/-- C7: reconciling a service with `enable=true` and a valid schedule, then
with `enable=false`, then with `enable=true` again round-trips: the same
worker job (with the same schedule) is registered for the service after the
third reconcile as after the first, the jobs-map size returns to its value
before the toggle, and the cron engine holds the same number of entries
(no leaked entries). The entry-id bound is the cron engine's freshness
invariant. -/
theorem C7_enable_toggle_roundtrip
    (pd : String → Option Nat) (valid : String → Bool) (name : String)
    (L1 L2 : List (String × String)) (j j2 : Job) (e1 e2 : List String)
    (st : ScState) (r1 r2 r3 : CrudResult)
    (h0 : ∀ e ∈ st.cron.entries, e.1 < st.cron.nextId)
    (hL1 : seekLabels pd (baseJob name) L1 = some (j, e1))
    (hE1 : j.enable = true)
    (hV : valid j.schedule = true)
    (hL2 : seekLabels pd (baseJob name) L2 = some (j2, e2))
    (hE2 : j2.enable = false)
    (hs1 : crudJob pd valid (some ⟨name, L1⟩) name st = r1)
    (hs2 : crudJob pd valid (some ⟨name, L2⟩) name r1.st = r2)
    (hs3 : crudJob pd valid (some ⟨name, L1⟩) name r2.st = r3) :
    jobFor r1.st name = some j
    ∧ jobFor r3.st name = some j
    ∧ r3.st.jobs.length = r1.st.jobs.length
    ∧ r3.st.cron.entries.length = r1.st.cron.entries.length := by
  subst hs1
  subst hs2
  subst hs3
  cases hf : lookupAssoc st.jobs name with
  | none =>
    have hs1' : crudJob pd valid (some ⟨name, L1⟩) name st
        = ⟨⟨⟨(st.cron.nextId, j) :: st.cron.entries, st.cron.nextId + 1⟩,
            (name, st.cron.nextId) :: st.jobs.filter (fun e => e.1 ≠ name)⟩,
           true, false⟩ := by
      rw [crudJob_enabled_valid_absent hL1 hE1 hV hf]
      rfl
    rw [hs1']
    exact toggle_tail hL1 hE1 hV hL2 hE2
      (fun e he => Nat.ne_of_lt (h0 e he))
      (lookupAssoc_filter_ne _ _)
  | some id0 =>
    have hs1' : crudJob pd valid (some ⟨name, L1⟩) name st
        = ⟨⟨⟨(st.cron.nextId, j) :: st.cron.entries.filter (fun e => e.1 ≠ id0),
             st.cron.nextId + 1⟩,
            (name, st.cron.nextId) :: st.jobs.filter (fun e => e.1 ≠ name)⟩,
           true, false⟩ := by
      rw [crudJob_enabled_valid_found hL1 hE1 hV hf]
      simp [insertAssoc]
    rw [hs1']
    exact toggle_tail hL1 hE1 hV hL2 hE2
      (fun e he => Nat.ne_of_lt (h0 e (List.mem_of_mem_filter he)))
      (lookupAssoc_filter_ne _ _)

/-- Enabled-service label fixture used by witnesses. -/
def fixtureL1 : List (String × String) :=
  [("swarm.cronjob.enable", "true"), ("swarm.cronjob.schedule", "* * * * *")]

/-- Disabled-service label fixture used by witnesses. -/
def fixtureL2 : List (String × String) :=
  [("swarm.cronjob.enable", "false"), ("swarm.cronjob.schedule", "* * * * *")]

/-- The job built from `fixtureL1`. -/
def fixtureJ1 : Job := { baseJob "svc" with enable := true, schedule := "* * * * *" }

/-- The job built from `fixtureL2`. -/
def fixtureJ2 : Job := { baseJob "svc" with schedule := "* * * * *" }

/-- Witness for C7 at a concrete input: empty start state, enable toggled
true → false → true. -/
theorem C7_enable_toggle_roundtrip_witness :
    jobFor ((⟨⟨⟨[(0, fixtureJ1)], 1⟩, [("svc", 0)]⟩, true, false⟩ : CrudResult).st)
      "svc" = some fixtureJ1
    ∧ jobFor ((⟨⟨⟨[(1, fixtureJ1)], 2⟩, [("svc", 1)]⟩, true, false⟩ : CrudResult).st)
      "svc" = some fixtureJ1
    ∧ ((⟨⟨⟨[(1, fixtureJ1)], 2⟩, [("svc", 1)]⟩, true, false⟩ : CrudResult).st).jobs.length
      = ((⟨⟨⟨[(0, fixtureJ1)], 1⟩, [("svc", 0)]⟩, true, false⟩ : CrudResult).st).jobs.length
    ∧ ((⟨⟨⟨[(1, fixtureJ1)], 2⟩, [("svc", 1)]⟩, true, false⟩ : CrudResult).st).cron.entries.length
      = ((⟨⟨⟨[(0, fixtureJ1)], 1⟩, [("svc", 0)]⟩, true, false⟩ : CrudResult).st).cron.entries.length :=
  C7_enable_toggle_roundtrip (fun _ => none) (fun s => s == "* * * * *") "svc"
    fixtureL1 fixtureL2 fixtureJ1 fixtureJ2 [] [] ⟨⟨[], 0⟩, []⟩
    ⟨⟨⟨[(0, fixtureJ1)], 1⟩, [("svc", 0)]⟩, true, false⟩
    ⟨⟨⟨[], 1⟩, []⟩, true, false⟩
    ⟨⟨⟨[(1, fixtureJ1)], 2⟩, [("svc", 1)]⟩, true, false⟩
    (by simp) (by decide) (by decide) (by decide) (by decide) (by decide)
    (by decide) (by decide) (by decide)

/-- C8: reconciling an enabled service that already has a schedule entry is
not atomic on error — the old entry is removed from the jobs map and the
cron engine before `AddJob` is attempted, so when schedule registration
fails the pre-existing entry is gone, yet `crudJob` reports
`(changed = false, error)`: the registry is mutated although `changed` is
false. -/
theorem C8_update_not_atomic
    (pd : String → Option Nat) (valid : String → Bool) (st : ScState)
    (serviceName : String) (L : List (String × String)) (j : Job)
    (es : List String) (id : Nat)
    (hf : lookupAssoc st.jobs serviceName = some id)
    (hL : seekLabels pd (baseJob serviceName) L = some (j, es))
    (hE : j.enable = true)
    (hV : valid j.schedule = false) :
    crudJob pd valid (some ⟨serviceName, L⟩) serviceName st
      = ⟨removeJob st serviceName id, false, true⟩
    ∧ lookupAssoc (removeJob st serviceName id).jobs serviceName = none
    ∧ lookupAssoc (removeJob st serviceName id).cron.entries id = none := by
  refine ⟨crudJob_enabled_invalid_found hL hE hV hf, ?_, ?_⟩
  · simpa [removeJob] using lookupAssoc_filter_ne st.jobs serviceName
  · simpa [removeJob] using lookupAssoc_filter_ne st.cron.entries id

/-- Enabled labels with a schedule the cron parser rejects, used by the C8
witness. -/
def fixtureL3 : List (String × String) :=
  [("swarm.cronjob.enable", "true"), ("swarm.cronjob.schedule", "@bogus")]

/-- The job built from `fixtureL3`. -/
def fixtureJ3 : Job := { baseJob "svc" with enable := true, schedule := "@bogus" }

/-- Witness for C8 at a concrete input: a registered service whose new
schedule string is rejected by the cron parser. -/
theorem C8_update_not_atomic_witness :
    crudJob (fun _ => none) (fun _ => false) (some ⟨"svc", fixtureL3⟩) "svc"
      ⟨⟨[(7, fixtureJ1)], 8⟩, [("svc", 7)]⟩
      = ⟨removeJob ⟨⟨[(7, fixtureJ1)], 8⟩, [("svc", 7)]⟩ "svc" 7, false, true⟩
    ∧ lookupAssoc (removeJob ⟨⟨[(7, fixtureJ1)], 8⟩, [("svc", 7)]⟩ "svc" 7).jobs
        "svc" = none
    ∧ lookupAssoc (removeJob ⟨⟨[(7, fixtureJ1)], 8⟩, [("svc", 7)]⟩ "svc" 7).cron.entries
        7 = none :=
  C8_update_not_atomic (fun _ => none) (fun _ => false)
    ⟨⟨[(7, fixtureJ1)], 8⟩, [("svc", 7)]⟩ "svc" fixtureL3 fixtureJ3 [] 7
    (by decide) (by decide) rfl rfl

/-- C9: calling `WaitForEnd` for a service with no entry in the jobs
registry while the current task list contains a task outside the baseline
snapshot dereferences the nil worker pointer (reading
`wc.Job.EventTimeout`) — a runtime panic instead of an error return. -/
theorem C9_nil_worker_panic
    (pd : String → Option Nat) (iterOf : Nat → Nat) (logsOf : String → String)
    (polls : Nat → List TaskInfo) (st : ScState) (serviceName : String)
    (tasks : List TaskInfo)
    (h1 : lookupAssoc st.jobs serviceName = none)
    (h2 : ∃ t ∈ polls 0, t.id ∉ tasks.map (fun t => t.id)) :
    waitForEnd pd iterOf logsOf polls st serviceName tasks = .nilPanic := by
  obtain ⟨x, hx⟩ := Option.isSome_iff_exists.mp (firstNew_isSome h2)
  simp [waitForEnd, h1, waitBody, hx]

/-- Witness for C9 at a concrete input: unknown service, one new task. -/
theorem C9_nil_worker_panic_witness :
    waitForEnd (fun _ => some 5) (fun d => d) (fun _ => "LOG")
      (fun _ => [⟨"A", ⟨"running", ""⟩⟩]) ⟨⟨[], 0⟩, []⟩ "svc" []
      = .nilPanic :=
  C9_nil_worker_panic _ _ _ _ _ _ _ rfl
    ⟨⟨"A", ⟨"running", ""⟩⟩, by decide, by decide⟩

/-- C10: when the job's stored `eventTimeout` string fails to parse as a
duration (the empty string included), `WaitForEnd` discards the parse error
and uses a zero timeout, so once a new task is seen the wait returns the
`"Timeout"` error at the very first timer check — whatever the polls would
later show, even a completing task. -/
theorem C10_unparsable_timeout
    (pd : String → Option Nat) (iterOf : Nat → Nat) (logsOf : String → String)
    (polls : Nat → List TaskInfo) (st : ScState) (serviceName : String)
    (tasks : List TaskInfo) (id : Nat) (j : Job)
    (h1 : lookupAssoc st.jobs serviceName = some id)
    (h2 : lookupAssoc st.cron.entries id = some j)
    (h3 : pd j.eventTimeout = none)
    (h4 : iterOf 0 = 0)
    (h5 : ∃ t ∈ polls 0, t.id ∉ tasks.map (fun t => t.id)) :
    waitForEnd pd iterOf logsOf polls st serviceName tasks = .err "Timeout" := by
  obtain ⟨x, hx⟩ := Option.isSome_iff_exists.mp (firstNew_isSome h5)
  simp [waitForEnd, h1, h2, waitBody, hx, h3, h4, waitLoop]

/-- Witness for C10 at a concrete input: no `event.timeout` label was set
(`eventTimeout` is the empty string, which `ParseDuration` rejects); the
new task `A` would complete at the first poll, yet the wait times out at
once. -/
theorem C10_unparsable_timeout_witness :
    waitForEnd (fun _ => none) (fun d => d) (fun _ => "LOG")
      (fun n => match n with
        | 0 => [⟨"A", ⟨"running", ""⟩⟩]
        | _ + 1 => [⟨"A", ⟨"complete", ""⟩⟩])
      ⟨⟨[(1, { baseJob "svc" with enable := true })], 2⟩, [("svc", 1)]⟩ "svc" []
      = .err "Timeout" :=
  C10_unparsable_timeout _ _ _ _ _ _ _ 1 _ rfl rfl rfl rfl
    ⟨⟨"A", ⟨"running", ""⟩⟩, by decide, by decide⟩

end SwarmCronjob
